import Mathlib

/-!
Shallow embedding of the compilation core of `src/python/python_app.py`
(repository `coremoon/simplicity-wasm`).

The embedded functions are `compile_simplicity` and `compile_with_witness`,
together with the helpers they call: the Python truthiness/`str.strip`
emptiness guard, and `json.loads` (Python standard library, modelled here by
`pyJsonParse`), which `validate_json` and `compile_with_witness` invoke.
-/

/-- Characters stripped by Python `str.strip()` (Unicode whitespace:
`str.isspace` is true exactly on these code points). -/
def pyIsSpace (c : Char) : Bool :=
  let n := c.toNat
  (9 ≤ n && n ≤ 13) || (28 ≤ n && n ≤ 32) || n = 0x85 || n = 0xa0 ||
  n = 0x1680 || (0x2000 ≤ n && n ≤ 0x200a) || n = 0x2028 || n = 0x2029 ||
  n = 0x202f || n = 0x205f || n = 0x3000

/-- Python guard `not s or not s.strip()`: true iff `s` is empty or
consists only of whitespace characters. -/
def pyBlank (s : String) : Bool :=
  s.toList.all pyIsSpace

/-- JSON whitespace skipped by Python `json` between tokens
(space, tab, newline, carriage return only). -/
def jsonWs (c : Char) : Bool :=
  c = ' ' || c = '\t' || c = '\n' || c = '\r'

/-- Drop leading JSON whitespace. -/
def skipWs (cs : List Char) : List Char :=
  match cs with
  | c :: rest => if jsonWs c then skipWs rest else cs
  | [] => cs

/-- Python values produced by `json.loads`, as far as this backend observes
them.  Float-syntax numbers are kept as mantissa/decimal-exponent pairs;
`nan`, `inf`, `ninf` are the non-finite literals Python accepts by default. -/
inductive PyJson where
  | null : PyJson
  | bool (b : Bool) : PyJson
  | int (n : Int) : PyJson
  | float (mantissa : Int) (exp10 : Int) : PyJson
  | nan : PyJson
  | inf : PyJson
  | ninf : PyJson
  | str (s : String) : PyJson
  | arr (xs : List PyJson) : PyJson
  | obj (kvs : List (String × PyJson)) : PyJson
deriving Repr

/-- Hexadecimal digit value, if any (code points 0-9, a-f, A-F). -/
def hexVal (c : Char) : Option Nat :=
  let n := c.toNat
  if 48 ≤ n ∧ n ≤ 57 then some (n - 48)
  else if 97 ≤ n ∧ n ≤ 102 then some (n - 87)
  else if 65 ≤ n ∧ n ≤ 70 then some (n - 55)
  else none

/-- Body of a JSON string after the opening quote: returns the decoded
string and the remaining input.  Strict mode: raw control characters are
rejected, the escapes are exactly those of the JSON grammar. -/
def parseStringBody : List Char → String → Except String (String × List Char)
  | [], _ => .error "Unterminated string"
  | '"' :: cs, acc => .ok (acc, cs)
  | '\\' :: 'u' :: h1 :: h2 :: h3 :: h4 :: cs, acc =>
    match hexVal h1, hexVal h2, hexVal h3, hexVal h4 with
    | some a, some b, some c, some d =>
      parseStringBody cs (acc.push (Char.ofNat (((a * 16 + b) * 16 + c) * 16 + d)))
    | _, _, _, _ => .error "Invalid hex escape"
  | '\\' :: e :: cs, acc =>
    if e = '"' then parseStringBody cs (acc.push '"')
    else if e = '\\' then parseStringBody cs (acc.push '\\')
    else if e = '/' then parseStringBody cs (acc.push '/')
    else if e = 'b' then parseStringBody cs (acc.push (Char.ofNat 8))
    else if e = 'f' then parseStringBody cs (acc.push (Char.ofNat 12))
    else if e = 'n' then parseStringBody cs (acc.push '\n')
    else if e = 'r' then parseStringBody cs (acc.push '\r')
    else if e = 't' then parseStringBody cs (acc.push '\t')
    else .error "Invalid escape"
  | ['\\'], _ => .error "Unterminated string"
  | c :: cs, acc =>
    if c.toNat < 32 then .error "Invalid control character"
    else parseStringBody cs (acc.push c)

/-- Longest prefix of decimal digits, and the rest. -/
def takeDigits (cs : List Char) : List Char × List Char :=
  match cs with
  | d :: rest =>
    if !d.isDigit then ([], cs)
    else
      let p := takeDigits rest
      (d :: p.1, p.2)
  | [] => ([], cs)

/-- Numeric value of a digit list, most significant digit first. -/
def digitsToNat : List Char → Nat → Nat
  | [], acc => acc
  | d :: rest, acc => digitsToNat rest (10 * acc + (d.toNat - 48))

/-- A JSON number at the head of the input, following Python's `NUMBER_RE`
`(-?(?:0|[1-9]\d*))(\.\d+)?([eE][-+]?\d+)?`: the match is greedy but partial
(trailing garbage is left in the remainder for the caller to reject). -/
def parseNumber (cs : List Char) : Except String (PyJson × List Char) :=
  let signSplit : Bool × List Char :=
    match cs with
    | '-' :: tl => (true, tl)
    | _ => (false, cs)
  let neg := signSplit.1
  let cs1 := signSplit.2
  match cs1 with
  | c :: rest =>
    if c.isDigit then
      let (ip, r1) := if c = '0' then ([c], rest) else takeDigits cs1
      let (fd, r2) := match r1 with
        | '.' :: r => match takeDigits r with
          | ([], _) => (([] : List Char), r1)
          | (ds, rr) => (ds, rr)
        | _ => ([], r1)
      let (eds, esign, r3, hasExp) := match r2 with
        | e :: r =>
          if e = 'e' || e = 'E' then
            let (sgn, r') := match r with
              | '+' :: r'' => ((1 : Int), r'')
              | '-' :: r'' => ((-1 : Int), r'')
              | _ => ((1 : Int), r)
            match takeDigits r' with
            | ([], _) => (([] : List Char), (1 : Int), r2, false)
            | (ds, rr) => (ds, sgn, rr, true)
          else ([], 1, r2, false)
        | [] => ([], 1, r2, false)
      if fd.isEmpty && !hasExp then
        let n : Int := Int.ofNat (digitsToNat ip 0)
        .ok (.int (if neg then -n else n), r1)
      else
        let m : Int := Int.ofNat (digitsToNat (ip ++ fd) 0)
        let e : Int := esign * Int.ofNat (digitsToNat eds 0) - Int.ofNat fd.length
        .ok (.float (if neg then -m else m) e, r3)
    else .error "Expecting value"
  | [] => .error "Expecting value"

mutual

/-- One JSON value at the head of the input (leading whitespace already
skipped), returning the value and the remainder.  The fuel bounds nesting
depth; the top-level entry point supplies more fuel than any input can
consume. -/
def parseValue : Nat → List Char → Except String (PyJson × List Char)
  | 0, _ => .error "Too deeply nested"
  | _ + 1, 't' :: 'r' :: 'u' :: 'e' :: r => .ok (.bool true, r)
  | _ + 1, 'f' :: 'a' :: 'l' :: 's' :: 'e' :: r => .ok (.bool false, r)
  | _ + 1, 'n' :: 'u' :: 'l' :: 'l' :: r => .ok (.null, r)
  | _ + 1, 'N' :: 'a' :: 'N' :: r => .ok (.nan, r)
  | _ + 1, 'I' :: 'n' :: 'f' :: 'i' :: 'n' :: 'i' :: 't' :: 'y' :: r => .ok (.inf, r)
  | _ + 1, '-' :: 'I' :: 'n' :: 'f' :: 'i' :: 'n' :: 'i' :: 't' :: 'y' :: r => .ok (.ninf, r)
  | _ + 1, '"' :: r =>
    match parseStringBody r "" with
    | .ok (s, rr) => .ok (.str s, rr)
    | .error e => .error e
  | f + 1, '\x7b' :: r =>
    (match skipWs r with
     | '\x7d' :: r2 => .ok (.obj [], r2)
     | r1 =>
       match parseMembers f r1 with
       | .ok (kvs, rr) => .ok (.obj kvs, rr)
       | .error e => .error e)
  | f + 1, '[' :: r =>
    (match skipWs r with
     | ']' :: r2 => .ok (.arr [], r2)
     | r1 =>
       match parseItems f r1 with
       | .ok (vs, rr) => .ok (.arr vs, rr)
       | .error e => .error e)
  | _ + 1, c :: r =>
    if c = '-' || c.isDigit then parseNumber (c :: r)
    else .error "Expecting value"
  | _ + 1, [] => .error "Expecting value"

/-- Comma-separated array items up to the closing bracket (at least one). -/
def parseItems : Nat → List Char → Except String (List PyJson × List Char)
  | 0, _ => .error "Too deeply nested"
  | f + 1, cs =>
    match parseValue f cs with
    | .error e => .error e
    | .ok (v, r) =>
      match skipWs r with
      | ',' :: r2 =>
        (match parseItems f (skipWs r2) with
         | .ok (vs, rr) => .ok (v :: vs, rr)
         | .error e => .error e)
      | ']' :: r2 => .ok ([v], r2)
      | _ => .error "Expecting array delimiter"

/-- Comma-separated object members up to the closing brace (at least one). -/
def parseMembers : Nat → List Char → Except String (List (String × PyJson) × List Char)
  | 0, _ => .error "Too deeply nested"
  | f + 1, cs =>
    match cs with
    | '"' :: r =>
      (match parseStringBody r "" with
       | .error e => .error e
       | .ok (k, r1) =>
         match skipWs r1 with
         | ':' :: r2 =>
           (match parseValue f (skipWs r2) with
            | .error e => .error e
            | .ok (v, r3) =>
              match skipWs r3 with
              | ',' :: r4 =>
                (match parseMembers f (skipWs r4) with
                 | .ok (kvs, rr) => .ok ((k, v) :: kvs, rr)
                 | .error e => .error e)
              | '\x7d' :: r4 => .ok ([(k, v)], r4)
              | _ => .error "Expecting object delimiter")
         | _ => .error "Expecting colon")
    | _ => .error "Expecting property name in double quotes"

end

/-- Python `json.loads`: decode exactly one JSON document, allowing leading
and trailing JSON whitespace, rejecting anything left over as extra data. -/
def pyJsonParse (s : String) : Except String PyJson :=
  match parseValue (2 * s.length + 4) (skipWs s.toList) with
  | .error e => .error e
  | .ok (v, r) =>
    match skipWs r with
    | [] => .ok v
    | _ => .error "Extra data"

/-- Result object of `python_app.py` (class `CompileResult`): the three
fields the constructor stores, each defaulting to `None`. -/
structure CompileResult where
  cmr : Option String
  error : Option String
  witness_data : Option PyJson
deriving Repr

/-- `validate_json`: `json.loads` wrapped into an ok-flag and a message
`"Invalid JSON: " + str(e)` on failure. -/
def validate_json (data : String) : Bool × String :=
  match pyJsonParse data with
  | .ok _ => (true, "")
  | .error e => (false, "Invalid JSON: " ++ e)

/-- The hardcoded placeholder CMR returned by the backend. -/
def placeholder_cmr : String :=
  "c40a10263f7436b4160acbef1c36fba4be4d95df181a968afeab5eac247adff7"

/-- `compile_simplicity`: empty-source guard, then the placeholder CMR.
The source's `logger.info` call does not affect the returned value. -/
def compile_simplicity (code : String) : CompileResult :=
  if pyBlank code then ⟨none, some "Code is empty", none⟩
  else ⟨some placeholder_cmr, none, none⟩

/-- Python `len()` is defined exactly on the sized values `json.loads` can
produce: strings, arrays and objects; on any other value it raises
`TypeError`. -/
def pyHasLen : PyJson → Bool
  | .str _ => true
  | .arr _ => true
  | .obj _ => true
  | _ => false

/-- `compile_with_witness`: empty-source guard, empty-witness guard,
`validate_json`, then the log line
`logger.info(f"Witness variables count: \x7blen(json.loads(witness_data))\x7d")`,
whose `len` call raises an uncaught `TypeError` when the witness parses to
a value without `len()` (int, float, bool, null, NaN, Infinity) — modelled
by the `Except.error` outcome, since the function then returns nothing.
Otherwise a second `json.loads` of the same string (which cannot fail once
validation passed, so the two Python parses collapse to one `match`) and
the placeholder CMR with the parsed witness. -/
def compile_with_witness (code : String) (witness_data : String) :
    Except String CompileResult :=
  if pyBlank code then .ok ⟨none, some "Code is empty", none⟩
  else if pyBlank witness_data then .ok ⟨none, some "Witness data is empty", none⟩
  else
    match pyJsonParse witness_data with
    | .error e => .ok ⟨none, some ("Invalid JSON: " ++ e), none⟩
    | .ok witness_json =>
      if pyHasLen witness_json then
        .ok ⟨some placeholder_cmr, none, some witness_json⟩
      else .error "TypeError: object has no len()"

/-- `p` is a prefix of `s`, character by character. -/
def beginsWith : List Char → List Char → Bool
  | [], _ => true
  | _ :: _, [] => false
  | p :: ps, c :: cs => p = c && beginsWith ps cs

/-- Lowercase hexadecimal digit. -/
def isLowerHex (c : Char) : Bool :=
  c.isDigit || ('a' ≤ c && c ≤ 'f')

example : pyJsonParse "1" = .ok (.int 1) := by rfl
example : pyJsonParse "\x7b\"VALUE\": 42\x7d" = .ok (.obj [("VALUE", .int 42)]) := by rfl
example : (pyJsonParse "not json").isOk = false := by rfl
example : (pyJsonParse "").isOk = false := by rfl
example : (pyJsonParse " ").isOk = false := by rfl
example : pyJsonParse "[1, 2.5e1, \"a\"]" =
    .ok (.arr [.int 1, .float 25 0, .str "a"]) := by rfl
example : pyJsonParse "0.25" = .ok (.float 25 (-2)) := by rfl
example : compile_simplicity "" = ⟨none, some "Code is empty", none⟩ := by rfl
example : compile_simplicity "x" = ⟨some placeholder_cmr, none, none⟩ := by rfl

/-! Theorems -/

lemma beginsWith_append (p r : List Char) : beginsWith p (p ++ r) = true := by
  induction p with
  | nil => rfl
  | cons c cs ih => simp [beginsWith, ih]

lemma placeholder_cmr_format :
    placeholder_cmr.length = 64 ∧ placeholder_cmr.toList.all isLowerHex = true :=
  ⟨rfl, rfl⟩

/-- C1: the code violates structural sensitivity: two structurally different
source programs (different combinator kinds in the body) compile to the
identical hardcoded CMR, so `compile(S).cmr` does not differ from
`compile(S&#39;).cmr`. -/
theorem compile_same_cmr_for_distinct_sources :
    "fn main() \x7b unit \x7d" ≠ "fn main() \x7b iden \x7d" ∧
    compile_simplicity "fn main() \x7b unit \x7d" =
      compile_simplicity "fn main() \x7b iden \x7d" ∧
    (compile_simplicity "fn main() \x7b unit \x7d").cmr = some placeholder_cmr := by
  exact ⟨by decide, rfl, rfl⟩

/-- C2: witness independence: for any non-blank source and any two non-blank
witness strings that parse to JSON objects (the shape of a witness map, and
a superset of the well-typed satisfying maps of the claim), both
witness-bearing compilations return results carrying the identical CMR,
equal to the CMR of the witness-free compilation. -/
theorem compile_with_witness_cmr_independent (s w1 w2 : String)
    (m1 m2 : List (String × PyJson))
    (hs : pyBlank s = false) (hw1 : pyBlank w1 = false) (hw2 : pyBlank w2 = false)
    (hp1 : pyJsonParse w1 = .ok (.obj m1)) (hp2 : pyJsonParse w2 = .ok (.obj m2)) :
    compile_with_witness s w1 = .ok ⟨some placeholder_cmr, none, some (.obj m1)⟩ ∧
    compile_with_witness s w2 = .ok ⟨some placeholder_cmr, none, some (.obj m2)⟩ ∧
    (compile_simplicity s).cmr = some placeholder_cmr := by
  simp [compile_with_witness, compile_simplicity, pyHasLen, hs, hw1, hw2, hp1, hp2]

theorem compile_with_witness_cmr_independent_witness :
    pyBlank "fn main()" = false ∧
    pyBlank "\x7b\"A\": 1\x7d" = false ∧ pyBlank "\x7b\"B\": 2\x7d" = false ∧
    pyJsonParse "\x7b\"A\": 1\x7d" = .ok (.obj [("A", .int 1)]) ∧
    pyJsonParse "\x7b\"B\": 2\x7d" = .ok (.obj [("B", .int 2)]) ∧
    (compile_with_witness "fn main()" "\x7b\"A\": 1\x7d"
       = .ok ⟨some placeholder_cmr, none, some (.obj [("A", .int 1)])⟩ ∧
     compile_with_witness "fn main()" "\x7b\"B\": 2\x7d"
       = .ok ⟨some placeholder_cmr, none, some (.obj [("B", .int 2)])⟩ ∧
     (compile_simplicity "fn main()").cmr = some placeholder_cmr) :=
  ⟨rfl, rfl, rfl, rfl, rfl,
   compile_with_witness_cmr_independent "fn main()" "\x7b\"A\": 1\x7d" "\x7b\"B\": 2\x7d"
     [("A", .int 1)] [("B", .int 2)] rfl rfl rfl rfl rfl⟩

/-- C3: determinism: the result of `compile_simplicity` depends only on the
input string, so two invocations on the same string yield identical results
(the embedding is pure; the only ambient interaction in the source is a log
call whose value is discarded). -/
theorem compile_simplicity_deterministic (s1 s2 : String) (h : s1 = s2) :
    compile_simplicity s1 = compile_simplicity s2 := by
  rw [h]

theorem compile_simplicity_deterministic_witness :
    ("fn main() \x7b\x7d" : String) = "fn main() \x7b\x7d" ∧
    compile_simplicity "fn main() \x7b\x7d" = compile_simplicity "fn main() \x7b\x7d" :=
  ⟨rfl, compile_simplicity_deterministic "fn main() \x7b\x7d" "fn main() \x7b\x7d" rfl⟩

/-- C4: the code does not produce the claimed missing-witness bind error: on
a program referencing `witness::VALUE` with a witness map lacking `VALUE`,
`compile_with_witness` returns success with the hardcoded CMR and the given
map echoed back, not a bind error with null CMR. -/
theorem compile_with_witness_missing_name_succeeds :
    compile_with_witness "fn main() \x7b witness::VALUE \x7d" "\x7b\"OTHER\": 1\x7d" =
      .ok ⟨some placeholder_cmr, none, some (.obj [("OTHER", .int 1)])⟩ :=
  rfl

/-- C5: empty-source error: on an empty or whitespace-only source, both
entry points return a null CMR with the error `"Code is empty"`, before any
witness processing. -/
theorem compile_empty_source_error (s w : String) (h : pyBlank s = true) :
    compile_simplicity s = ⟨none, some "Code is empty", none⟩ ∧
    compile_with_witness s w = .ok ⟨none, some "Code is empty", none⟩ := by
  simp [compile_simplicity, compile_with_witness, h]

theorem compile_empty_source_error_witness :
    pyBlank " \t" = true ∧
    (compile_simplicity " \t" = ⟨none, some "Code is empty", none⟩ ∧
     compile_with_witness " \t" "\x7b\x7d" = .ok ⟨none, some "Code is empty", none⟩) :=
  ⟨rfl, compile_empty_source_error " \t" "\x7b\x7d" rfl⟩

/-- C6 counterexample: the empty string is not valid JSON, yet on source
`"x"` and witness `""` the returned error is `"Witness data is empty"`,
which does not begin with `"Invalid JSON: "` — refuting the claim for
empty/whitespace-only witness strings. -/
theorem invalid_json_claim_counterexample :
    pyBlank "x" = false ∧ (pyJsonParse "").isOk = false ∧
    compile_with_witness "x" "" = .ok ⟨none, some "Witness data is empty", none⟩ ∧
    beginsWith "Invalid JSON: ".toList "Witness data is empty".toList = false :=
  ⟨rfl, rfl, rfl, rfl⟩

/-- C6 (amended): for a non-blank source and a witness string that is not
empty/whitespace-only and fails to parse as JSON, `compile_with_witness`
returns a null CMR and an error beginning with `"Invalid JSON: "`, never a
CMR. -/
theorem invalid_json_error (s w e : String) (hs : pyBlank s = false)
    (hw : pyBlank w = false) (hp : pyJsonParse w = .error e) :
    compile_with_witness s w = .ok ⟨none, some ("Invalid JSON: " ++ e), none⟩ ∧
    beginsWith "Invalid JSON: ".toList ("Invalid JSON: " ++ e).toList = true := by
  constructor
  · simp [compile_with_witness, hs, hw, hp]
  · rw [show ("Invalid JSON: " ++ e).toList
        = "Invalid JSON: ".toList ++ e.toList from String.data_append ..]
    exact beginsWith_append ..

theorem invalid_json_error_witness :
    pyBlank "x" = false ∧ pyBlank "nope" = false ∧
    pyJsonParse "nope" = .error "Expecting value" ∧
    (compile_with_witness "x" "nope"
       = .ok ⟨none, some ("Invalid JSON: " ++ "Expecting value"), none⟩ ∧
     beginsWith "Invalid JSON: ".toList
       ("Invalid JSON: " ++ "Expecting value").toList = true) :=
  ⟨rfl, rfl, rfl, invalid_json_error "x" "nope" "Expecting value" rfl rfl rfl⟩

/-- C7: no partial success: for both entry points, every returned result
has a non-null error exactly when the CMR is null, and a non-null error is
never accompanied by witness data (a raise returns no result at all). -/
theorem no_partial_success (s w : String) :
    ((compile_simplicity s).error.isSome ↔ (compile_simplicity s).cmr = none) ∧
    ((compile_simplicity s).error.isSome → (compile_simplicity s).witness_data = none) ∧
    (∀ r, compile_with_witness s w = .ok r →
      ((r.error.isSome ↔ r.cmr = none) ∧
       (r.error.isSome → r.witness_data = none))) := by
  refine ⟨?_, ?_, ?_⟩
  · unfold compile_simplicity
    split <;> simp
  · unfold compile_simplicity
    split <;> simp
  · intro r hr
    unfold compile_with_witness at hr
    repeat' split at hr
    all_goals cases hr
    all_goals simp

theorem no_partial_success_witness :
    ((compile_simplicity "x").error.isSome ↔ (compile_simplicity "x").cmr = none) ∧
    ((compile_simplicity "x").error.isSome → (compile_simplicity "x").witness_data = none) ∧
    compile_with_witness "x" "\x7b\x7d" = .ok ⟨some placeholder_cmr, none, some (.obj [])⟩ ∧
    (((⟨some placeholder_cmr, none, some (.obj [])⟩ : CompileResult).error.isSome ↔
        (⟨some placeholder_cmr, none, some (.obj [])⟩ : CompileResult).cmr = none) ∧
     ((⟨some placeholder_cmr, none, some (.obj [])⟩ : CompileResult).error.isSome →
        (⟨some placeholder_cmr, none, some (.obj [])⟩ : CompileResult).witness_data = none)) :=
  ⟨(no_partial_success "x" "\x7b\x7d").1,
   (no_partial_success "x" "\x7b\x7d").2.1,
   rfl,
   (no_partial_success "x" "\x7b\x7d").2.2
     ⟨some placeholder_cmr, none, some (.obj [])⟩ rfl⟩

/-- C8: witness echo: for a non-blank source and a witness string parsing to
JSON value `v`, whenever `compile_with_witness` returns a result at all
(the `len` log call raises for unsized values, returning nothing), that
result is a success whose `witness_data` is exactly the parsed value `v`. -/
theorem witness_echo_on_success (s w : String) (v : PyJson) (r : CompileResult)
    (hs : pyBlank s = false) (hw : pyBlank w = false) (hp : pyJsonParse w = .ok v)
    (hr : compile_with_witness s w = .ok r) :
    r.witness_data = some v ∧ r.cmr = some placeholder_cmr ∧ r.error = none := by
  unfold compile_with_witness at hr
  rw [hs, hw, hp] at hr
  simp only [Bool.false_eq_true, if_false] at hr
  split at hr
  · injection hr with h
    rw [← h]
    exact ⟨rfl, rfl, rfl⟩
  · cases hr

theorem witness_echo_on_success_witness :
    pyBlank "code" = false ∧ pyBlank "\x7b\"VALUE\": 42\x7d" = false ∧
    pyJsonParse "\x7b\"VALUE\": 42\x7d" = .ok (.obj [("VALUE", .int 42)]) ∧
    compile_with_witness "code" "\x7b\"VALUE\": 42\x7d"
      = .ok ⟨some placeholder_cmr, none, some (.obj [("VALUE", .int 42)])⟩ ∧
    ((⟨some placeholder_cmr, none, some (.obj [("VALUE", .int 42)])⟩ : CompileResult).witness_data
       = some (.obj [("VALUE", .int 42)]) ∧
     (⟨some placeholder_cmr, none, some (.obj [("VALUE", .int 42)])⟩ : CompileResult).cmr
       = some placeholder_cmr ∧
     (⟨some placeholder_cmr, none, some (.obj [("VALUE", .int 42)])⟩ : CompileResult).error
       = none) :=
  ⟨rfl, rfl, rfl, rfl,
   witness_echo_on_success "code" "\x7b\"VALUE\": 42\x7d" (.obj [("VALUE", .int 42)])
     ⟨some placeholder_cmr, none, some (.obj [("VALUE", .int 42)])⟩
     rfl rfl rfl rfl⟩

/-- C9: CMR format: whenever either entry point returns a CMR, it is the
64-character lowercase-hexadecimal string (the same fixed length in every
successful case). -/
theorem cmr_fixed_hex_format (s w : String) :
    (∀ c, (compile_simplicity s).cmr = some c →
      c.length = 64 ∧ c.toList.all isLowerHex = true) ∧
    (∀ r c, compile_with_witness s w = .ok r → r.cmr = some c →
      c.length = 64 ∧ c.toList.all isLowerHex = true) := by
  constructor
  · intro c hc
    unfold compile_simplicity at hc
    split at hc
    · cases hc
    · injection hc with h
      rw [← h]
      exact placeholder_cmr_format
  · intro r c hr hc
    unfold compile_with_witness at hr
    repeat' split at hr
    all_goals cases hr
    all_goals cases hc
    all_goals exact placeholder_cmr_format

theorem cmr_fixed_hex_format_witness :
    (compile_simplicity "x").cmr = some placeholder_cmr ∧
    placeholder_cmr.length = 64 ∧ placeholder_cmr.toList.all isLowerHex = true :=
  ⟨rfl, (cmr_fixed_hex_format "x" "\x7b\x7d").1 placeholder_cmr rfl⟩

/-- C10: empty-witness edge case: for a non-blank source and an empty or
whitespace-only witness string, `compile_with_witness` returns a null CMR
with the error `"Witness data is empty"` instead of falling back to the
witness-free compilation. -/
theorem empty_witness_error (s w : String) (hs : pyBlank s = false)
    (hw : pyBlank w = true) :
    compile_with_witness s w = .ok ⟨none, some "Witness data is empty", none⟩ := by
  simp [compile_with_witness, hs, hw]

theorem empty_witness_error_witness :
    pyBlank "x" = false ∧ pyBlank " " = true ∧
    compile_with_witness "x" " " = .ok ⟨none, some "Witness data is empty", none⟩ :=
  ⟨rfl, rfl, empty_witness_error "x" " " rfl rfl⟩
